import Mathlib

/-!
Verification of the Smart-Air-Purifier desktop controller
(`desktop_air_purifier_app.py`) against its design specification.

The embedding follows the Python source shallowly:
* Python `float` values are modelled as exact rationals (`ℚ`);
* Python `int` values are modelled as `ℤ`;
* values read from JSON-like payloads that may be missing or non-numeric
  are modelled as `Option ℚ` (with `none` standing for a missing key or a
  value whose conversion raises, which the source replaces by a default);
* Python's built-in `round` (banker's rounding, round half to even) is
  modelled by `pyRound`, and `int(float(x))` truncation by `pyIntTrunc`.
-/

namespace AirPurifier

/- Module-level constants, `desktop_air_purifier_app.py` lines 40-53. -/

def DEFAULT_FILTER_REPLACEMENT_HOURS : ℚ := 720

def FAN_APP_MAX_RPM : ℤ := 2200

def MIN_FILTER_HOURS : ℚ := 100

def MAX_FILTER_HOURS : ℚ := 5000

def LLM_MIN_INTERVAL_SECONDS : ℚ := 120

def LLM_MAX_INTERVAL_SECONDS : ℚ := 300

/- `clamp(value, low, high) = max(low, min(high, value))`, line 133. -/

def clamp (value low high : ℚ) : ℚ := max low (min high value)

/- The same arithmetic restricted to integers; on integer arguments the
source's `clamp` followed by `int(...)` computes exactly this. -/

def clampZ (value low high : ℤ) : ℤ := max low (min high value)

/- `int(x)` on a float truncates toward zero. -/

def pyIntTrunc (q : ℚ) : ℤ := if 0 ≤ q then ⌊q⌋ else ⌈q⌉

/- Python 3 `round(x)`: round half to even. -/

def pyRound (q : ℚ) : ℤ :=
  let f := ⌊q⌋
  let frac := q - (f : ℚ)
  if frac < 1/2 then f
  else if 1/2 < frac then f + 1
  else if f % 2 = 0 then f else f + 1

/- `safe_int(value, default)`, lines 147-151: `int(float(value))` or the
default when conversion raises (modelled by `none`). -/

def safeInt (value : Option ℚ) (default : ℤ) : ℤ :=
  match value with
  | none => default
  | some q => pyIntTrunc q

/- `safe_float(value, default)`, lines 154-158. -/

def safeFloat (value : Option ℚ) (default : ℚ) : ℚ :=
  match value with
  | none => default
  | some q => q

/- Control profiles, `PROFILE_CONFIG`, lines 60-88. -/

structure Profile where
  min_speed : ℤ
  max_speed : ℤ
  aqi_weight : ℚ
  pm25_weight : ℚ
  pm10_weight : ℚ
  shape : ℚ
  step : ℤ
deriving DecidableEq

def quiet : Profile := ⟨28, 82, 40/100, 30/100, 16/100, 115/100, 7⟩

def balanced : Profile := ⟨34, 92, 48/100, 32/100, 10/100, 9/10, 10⟩

def aggressive : Profile := ⟨38, 100, 50/100, 32/100, 10/100, 75/100, 12⟩

/- `PROFILE_CONFIG.get(name, PROFILE_CONFIG["aggressive"])` as used at
line 1008. -/

def profileConfig (name : String) : Profile :=
  if name = "quiet" then quiet
  else if name = "balanced" then balanced
  else aggressive

/-! ## HealthMonitor (lines 433-524)

Counters and last-success flags per subsystem; `status()` derives a single
prioritized `HealthStatus` (dataclass at lines 246-252). -/

structure HealthState where
  esp_failures : ℕ
  api_failures : ℕ
  ai_failures : ℕ
  last_esp_ok : Bool
  last_api_ok : Bool
  last_ai_ok : Bool
deriving DecidableEq

structure HealthStatus where
  label : String
  background : String
  foreground : String
  summary : String
  healthy : Bool
deriving DecidableEq

/- The counters string interpolated into every summary, line 480. -/

def countersStr (s : HealthState) : String :=
  "ESP:" ++ toString s.esp_failures ++ " API:" ++ toString s.api_failures ++
    " AI:" ++ toString s.ai_failures

/- `HealthMonitor.status`, lines 478-524. -/

def healthStatus (s : HealthState) : HealthStatus :=
  let counters := countersStr s
  if s.last_esp_ok = false then
    ⟨"Health: ESP Offline", "#7f1d1d", "#fecaca", "ESP not reachable. " ++ counters, false⟩
  else if s.last_api_ok = false then
    ⟨"Health: API Degraded", "#78350f", "#fde68a", "Weather/API unstable. " ++ counters, false⟩
  else if s.last_ai_ok = false then
    ⟨"Health: AI Degraded", "#7c2d12", "#ffedd5",
      "LLM unavailable; fallback active. " ++ counters, false⟩
  else if 0 < s.esp_failures + s.api_failures + s.ai_failures then
    ⟨"Health: Recovering", "#365314", "#ecfccb",
      "Recovered from earlier errors. " ++ counters, true⟩
  else
    ⟨"Health: Healthy", "#14532d", "#dcfce7", "All systems operating normally.", true⟩

/- `record_ai_success` (lines 467-469) and `record_ai_failure`
(lines 471-476); the log call is I/O. -/

def record_ai_success (s : HealthState) : HealthState :=
  { s with last_ai_ok := true }

def record_ai_failure (s : HealthState) : HealthState :=
  { s with last_ai_ok := false, ai_failures := s.ai_failures + 1 }

/-! ## CalibrationManager (lines 526-648)

A calibration sample is a (pwm, rpm) pair of integers.  The persisted
calibration file is modelled after JSON decoding: a raw sample entry is
either not an object (discarded by the loader) or an object whose `pwm`
and `rpm` fields may be missing or non-numeric (`none`, which `safe_int`
replaces by a default).  The `timestamp` field of the stored record only
flows into the result's timestamp string and is not modelled. -/

structure Sample where
  pwm : ℤ
  rpm : ℤ
deriving DecidableEq

inductive RawEntry where
  | notDict
  | entry (pwm rpm : Option ℚ)
deriving DecidableEq

/- `True` exactly on entries that pass the `isinstance(sample, dict)`
check at line 549. -/

def isDict : RawEntry → Bool
  | .notDict => false
  | .entry _ _ => true

/- The parsed calibration file; `none` for `samples` models a missing
`samples` key or one that is not a list (line 544). -/

structure RawCalib where
  samples : Option (List RawEntry)
  spin_up_pwm : Option ℚ
  spin_up_rpm : Option ℚ
  max_rpm : Option ℚ

structure Calibration where
  samples : List Sample
  spin_up_pwm : ℤ
  spin_up_rpm : ℤ
  max_rpm : ℤ
deriving DecidableEq

/- `clean_samples.sort(key=lambda item: item["pwm"])` (line 560): Python's
stable ascending sort, as a stable insertion sort. -/

def insertByPwm (a : Sample) : List Sample → List Sample
  | [] => [a]
  | b :: l => if b.pwm < a.pwm then b :: insertByPwm a l else a :: b :: l

def sortByPwm : List Sample → List Sample
  | [] => []
  | a :: l => insertByPwm a (sortByPwm l)

/- `valid.sort(key=lambda item: item["rpm"])` (line 623), likewise. -/

def insertByRpm (a : Sample) : List Sample → List Sample
  | [] => [a]
  | b :: l => if b.rpm < a.rpm then b :: insertByRpm a l else a :: b :: l

def sortByRpm : List Sample → List Sample
  | [] => []
  | a :: l => insertByRpm a (sortByRpm l)

/- The running-maximum rewrite of RPM values, lines 561-565; `max_seen`
starts at 0. -/

def runningMax (max_seen : ℤ) : List Sample → List Sample
  | [] => []
  | s :: l =>
    let m := max max_seen s.rpm
    ⟨s.pwm, m⟩ :: runningMax m l

/- One iteration of the cleaning loop at lines 548-555: non-dict entries
are skipped, fields default to 0 via `safe_int` and are clamped. -/

def cleanSample : RawEntry → Option Sample
  | .notDict => none
  | .entry pwm rpm =>
    some ⟨clampZ (safeInt pwm 0) 0 100, clampZ (safeInt rpm 0) 0 FAN_APP_MAX_RPM⟩

/- `CalibrationManager._load_calibration`, lines 533-586.  The outer
`none` models a missing file, a JSON decode error, or a payload that is
not an object (lines 534-541); those paths all return `None`. -/

def loadCalibration (data : Option RawCalib) : Option Calibration :=
  match data with
  | none => none
  | some d =>
    match d.samples with
    | none => none
    | some raw =>
      let clean_samples := raw.filterMap cleanSample
      match clean_samples with
      | [] => none
      | c :: cs =>
        let monotonic_samples := runningMax 0 (sortByPwm (c :: cs))
        match monotonic_samples with
        | [] => none
        | m :: ms =>
          let spin_up_sample := ((m :: ms).find? (fun s => decide (250 ≤ s.rpm))).getD m
          let max_sample := ms.foldl (fun acc s => if acc.rpm < s.rpm then s else acc) m
          let spin_up_pwm := clampZ (safeInt d.spin_up_pwm spin_up_sample.pwm) 0 100
          let spin_up_rpm := clampZ (safeInt d.spin_up_rpm spin_up_sample.rpm) 0 FAN_APP_MAX_RPM
          let max_rpm := clampZ (safeInt d.max_rpm max_sample.rpm) spin_up_rpm FAN_APP_MAX_RPM
          some ⟨m :: ms, spin_up_pwm, spin_up_rpm, max_rpm⟩

/- The per-sample validity check of lines 612-619; on the typed samples
`safe_int` is the identity, leaving the range checks. -/

def validSample (s : Sample) : Bool :=
  decide (0 ≤ s.pwm) && decide (s.pwm ≤ 100) &&
    decide (0 ≤ s.rpm) && decide (s.rpm ≤ FAN_APP_MAX_RPM)

/- `target_rpm = int(round(spin_up_rpm + demand * (max_rpm - spin_up_rpm)))`
with `demand = clamp(demand_0_to_1, 0.0, 1.0)`, lines 630-631. -/

def target_rpm_for (spin_up_rpm max_rpm : ℤ) (demand_0_to_1 : ℚ) : ℤ :=
  pyRound ((spin_up_rpm : ℚ) + clamp demand_0_to_1 0 1 * ((max_rpm : ℚ) - (spin_up_rpm : ℚ)))

/- The bracketing-pair search loop of lines 638-646 over adjacent pairs
of the rpm-sorted valid samples. -/

def interpolateSearch (p : Profile) (target_rpm : ℤ) : List Sample → Option ℤ
  | low :: high :: rest =>
    if low.rpm ≤ target_rpm ∧ target_rpm ≤ high.rpm then
      if high.rpm = low.rpm then
        some (clampZ high.pwm p.min_speed p.max_speed)
      else
        let fraction : ℚ := ((target_rpm : ℚ) - (low.rpm : ℚ)) / ((high.rpm : ℚ) - (low.rpm : ℚ))
        let pwm := pyRound ((low.pwm : ℚ) + fraction * ((high.pwm : ℚ) - (low.pwm : ℚ)))
        some (clampZ pwm p.min_speed p.max_speed)
    else interpolateSearch p target_rpm (high :: rest)
  | _ => none

/- Lines 630-648 of `pwm_for_demand`, operating on the rpm-sorted valid
samples together with the calibration's spin-up and max RPM. -/

def pwmFromSorted (p : Profile) (spin_up_rpm max_rpm : ℤ) (demand_0_to_1 : ℚ) :
    List Sample → Option ℤ
  | [] => none
  | first :: rest =>
    let lastS := rest.getLastD first
    let target_rpm := target_rpm_for spin_up_rpm max_rpm demand_0_to_1
    if target_rpm ≤ first.rpm then
      some (clampZ first.pwm p.min_speed p.max_speed)
    else if lastS.rpm ≤ target_rpm then
      some (clampZ lastS.pwm p.min_speed p.max_speed)
    else interpolateSearch p target_rpm (first :: rest)

/- `CalibrationManager.pwm_for_demand`, lines 603-648.  The argument is
the stored calibration (`None` when never calibrated, line 605-606); on a
typed `Calibration` the stored `spin_up_rpm`/`max_rpm` keys are always
present, so the `safe_int` defaults of lines 625-626 never fire. -/

def pwm_for_demand (calibration : Option Calibration) (demand_0_to_1 : ℚ)
    (p : Profile) : Option ℤ :=
  match calibration with
  | none => none
  | some cal =>
    if cal.samples.length < 2 then none
    else
      let valid := cal.samples.filter validSample
      if valid.length < 2 then none
      else if cal.max_rpm ≤ cal.spin_up_rpm then none
      else pwmFromSorted p cal.spin_up_rpm cal.max_rpm demand_0_to_1 (sortByRpm valid)

/-! ## AIController (lines 913-1078)

Decision contexts are Python dicts mapping string keys to numbers or
strings; they are modelled as association lists over `CtxVal`.  Numeric
values are rationals, `str()` of a numeric value is modelled by
`toString` on `ℚ`, and a missing key compares through `str(None)`. -/

inductive CtxVal where
  | num (q : ℚ)
  | str (s : String)
deriving DecidableEq

abbrev Ctx := List (String × CtxVal)

/- `str(value)` as used by `_context_changed` for non-numeric
comparisons, with `str(None)` for a missing key. -/

def strForm : Option CtxVal → String
  | none => "None"
  | some (.num q) => toString q
  | some (.str s) => s

/- The per-key numeric thresholds of lines 982-990. -/

def fieldThreshold (key : String) : ℚ :=
  if key = "aqi" then 1
  else if key = "pm2_5" ∨ key = "pm10" then 6
  else if key = "room_temp" ∨ key = "outside_temp" then 6/5
  else if key = "room_humidity" ∨ key = "outside_humidity" then 8
  else 1/2

/- `previous.get(key)` on the association-list model. -/

def lookupCtx (c : Ctx) (key : String) : Option CtxVal :=
  (c.find? (fun kv => kv.1 = key)).map (fun kv => kv.2)

/- `AIController._context_changed`, lines 977-996: any numeric field
whose absolute delta reaches its threshold, or any non-numeric field
whose string form differs, marks the context as changed. -/

def contextChanged (previous current : Ctx) : Bool :=
  current.any (fun kv =>
    match lookupCtx previous kv.1, kv.2 with
    | some (.num p), .num c => decide (fieldThreshold kv.1 ≤ |c - p|)
    | pv, cv => decide (strForm pv ≠ strForm (some cv)))

/- `AIController._should_query_llm`, lines 961-975. -/

def should_query_llm (now last_ts : ℚ) (last_context : Option Ctx)
    (current_context : Ctx) : Bool :=
  let elapsed := now - last_ts
  if LLM_MAX_INTERVAL_SECONDS ≤ elapsed then true
  else if elapsed < LLM_MIN_INTERVAL_SECONDS then false
  else
    match last_context with
    | none => true
    | some previous => contextChanged previous current_context

/- `AIController.extract_speed`, lines 930-936: `re.search(r"(\d{1,3})")`
finds the first digit in the text and greedily takes up to three
consecutive digits from there. -/

def firstDigitRun : List Char → Option (List Char)
  | [] => none
  | c :: rest =>
    if c.isDigit then some (c :: (rest.takeWhile Char.isDigit).take 2)
    else firstDigitRun rest

def digitsToInt (cs : List Char) : ℤ :=
  cs.foldl (fun n c => 10 * n + ((c.toNat : ℤ) - 48)) 0

def extract_speed (text : String) (min_speed max_speed default_speed : ℤ) : ℤ :=
  match firstDigitRun text.toList with
  | none => clampZ default_speed min_speed max_speed
  | some run => clampZ (digitsToInt run) min_speed max_speed

/- The fan-decision fields of `AIController.__init__`, lines 919-926. -/

structure AIState where
  cached_fan_speed : Option ℤ
  last_fan_ai_ts : ℚ
  last_fan_context : Option Ctx
deriving DecidableEq

/- The sensor values extracted at lines 1017-1027 of `decide_fan_target`
(after `safe_float` / `safe_int` with their defaults): room temperature
and humidity from the device snapshot, outside temperature from the
weather payload, AQI and pollutant components from the air payload. -/

structure SensorReadings where
  room_temp : ℚ
  room_humidity : ℚ
  outside_temp : ℚ
  aqi : ℤ
  pm2_5 : ℚ
  pm10 : ℚ
  no2 : ℚ
  o3 : ℚ

/- The `fan_context` dict built at lines 1022-1031. -/

def fanContext (r : SensorReadings) : Ctx :=
  [("aqi", .num (r.aqi : ℚ)), ("pm2_5", .num r.pm2_5), ("pm10", .num r.pm10),
   ("no2", .num r.no2), ("o3", .num r.o3), ("room_temp", .num r.room_temp),
   ("outside_temp", .num r.outside_temp), ("room_humidity", .num r.room_humidity)]

/- `AIController.decide_fan_target`, lines 998-1078.  The advisory
transport call (`ollama_generate`, line 1053) is I/O: its outcome is an
explicit argument, `Except.error` standing for a raised exception and
`Except.ok` for the raw reply text.  The function returns the
(blended duty, degraded) pair together with the updated fan-decision
state and health state; logging is I/O and dropped. -/

def decide_fan_target (profile_name : String) (r : SensorReadings) (baseline : ℤ)
    (force_fail_safe : Bool) (now : ℚ) (llm_reply : Except String String)
    (st : AIState) (health : HealthState) : (ℤ × Bool) × AIState × HealthState :=
  let profile := profileConfig profile_name
  if force_fail_safe then
    ((baseline, true), ⟨some baseline, st.last_fan_ai_ts, st.last_fan_context⟩, health)
  else
    let fan_context := fanContext r
    let should_query := st.cached_fan_speed.isNone ||
      should_query_llm now st.last_fan_ai_ts st.last_fan_context fan_context
    let res : ℤ × Bool × AIState × HealthState :=
      if should_query then
        match llm_reply with
        | .ok raw =>
          let v := extract_speed raw profile.min_speed profile.max_speed baseline
          (v, false, ⟨some v, now, some fan_context⟩, record_ai_success health)
        | .error _ =>
          (baseline, true, ⟨some baseline, now, some fan_context⟩, record_ai_failure health)
      else
        (st.cached_fan_speed.getD baseline, false, st, health)
    let ai_target := res.1
    let llm_failed := res.2.1
    let blend_weight : ℚ := if llm_failed then 0 else 35/100
    let blended_target := clampZ
      (pyRound ((baseline : ℚ) * (1 - blend_weight) + (ai_target : ℚ) * blend_weight))
      profile.min_speed profile.max_speed
    ((blended_target, llm_failed), res.2.2.1, res.2.2.2)

/-! ## FilterTracker (lines 651-748)

`FilterState` is the dataclass at lines 239-243.  The tracker's file and
lock handling is I/O and is not modelled; `_load_state` is modelled from
the parsed JSON payload, `update_runtime` takes the current wall-clock
time as an explicit argument. -/

structure FilterState where
  runtime_hours : ℚ
  last_update_ts : ℚ
  replacement_interval_hours : ℚ
deriving DecidableEq

/- The parsed content of the filter state file; `none` for the whole
record models a missing file or a payload that is not a JSON object. -/

structure RawFilterData where
  runtime_hours : Option ℚ
  last_update_ts : Option ℚ
  replacement_interval_hours : Option ℚ

/- `FilterTracker.__init__` line 656: the constructor clamps the default
interval before `_load_state` runs. -/

def defaultInterval (replacement_interval_hours : ℚ) : ℚ :=
  clamp replacement_interval_hours MIN_FILTER_HOURS MAX_FILTER_HOURS

/- `FilterTracker._load_state`, lines 660-683. -/

def loadFilterState (now default_interval : ℚ) (data : Option RawFilterData) : FilterState :=
  match data with
  | none => ⟨0, now, default_interval⟩
  | some d =>
    ⟨clamp (safeFloat d.runtime_hours 0) 0 50000,
     safeFloat d.last_update_ts now,
     clamp (safeFloat d.replacement_interval_hours default_interval)
       MIN_FILTER_HOURS MAX_FILTER_HOURS⟩

/- `FilterTracker.update_runtime`, lines 702-722 (the opportunistic
persistence at line 715 is I/O and does not change the state). -/

def update_runtime (now : ℚ) (speed_percent : ℤ) (s : FilterState) : FilterState :=
  let ts0 := if s.last_update_ts ≤ 0 then now else s.last_update_ts
  let elapsed_seconds := max 0 (now - ts0)
  let speed := clamp (speed_percent : ℚ) 0 100
  let wear_multiplier := 1/4 + (3/4 * (speed / 100))
  ⟨s.runtime_hours + (elapsed_seconds / 3600) * wear_multiplier,
   now,
   s.replacement_interval_hours⟩

/- `FilterTracker.reset`, lines 724-734. -/

def resetFilter (now : ℚ) (s : FilterState) : FilterState :=
  ⟨0, now, s.replacement_interval_hours⟩

/- `FilterTracker.set_replacement_interval`, lines 697-700. -/

def set_replacement_interval (hours : ℚ) (s : FilterState) : FilterState :=
  ⟨s.runtime_hours, s.last_update_ts, clamp hours MIN_FILTER_HOURS MAX_FILTER_HOURS⟩

/- `FilterTracker.usage_percent`, lines 744-748. -/

def usage_percent (s : FilterState) : ℚ :=
  if s.replacement_interval_hours ≤ 0 then 0
  else max 0 ((s.runtime_hours / s.replacement_interval_hours) * 100)

/- A sequence of `update_runtime` calls, given as (now, speed) pairs. -/

def runUpdates : List (ℚ × ℤ) → FilterState → FilterState
  | [], s => s
  | u :: rest, s => runUpdates rest (update_runtime u.1 u.2 s)

/-! ## FanController (lines 1237-1278)

Only `ai_target_speed` and `ai_applied_speed` of the controller state are
touched by `compute_applied_speed`; timestamps and the lock are I/O. -/

structure FanState where
  ai_target_speed : Option ℤ
  ai_applied_speed : Option ℤ
deriving DecidableEq

/- `FanController.compute_applied_speed`, lines 1252-1268; the source's
`int(profile["step"])` is the identity because profile steps are
integers. -/

def compute_applied_speed (p : Profile) (target_speed current_speed : ℤ)
    (s : FanState) : (ℤ × ℤ) × FanState :=
  let min_speed := p.min_speed
  let max_speed := p.max_speed
  let step_limit := p.step
  let tgt := clampZ target_speed min_speed max_speed
  let applied0 :=
    match s.ai_applied_speed with
    | none => clampZ current_speed min_speed max_speed
    | some a => a
  let error := tgt - applied0
  let stp := clampZ error (-step_limit) step_limit
  let applied1 := if 2 ≤ |error| then applied0 + stp else applied0
  let applied := clampZ applied1 min_speed max_speed
  ((applied, tgt), ⟨some tgt, some applied⟩)

/-! ## Lemmas -/

lemma wear_multiplier_nonneg (speed : ℚ) :
    0 ≤ 1/4 + (3/4 * (clamp speed 0 100 / 100)) := by
  have h0 : (0 : ℚ) ≤ clamp speed 0 100 := le_max_left _ _
  positivity

lemma update_runtime_runtime_mono (now : ℚ) (speed : ℤ) (s : FilterState) :
    s.runtime_hours ≤ (update_runtime now speed s).runtime_hours := by
  simp only [update_runtime]
  have hel : (0 : ℚ) ≤ max 0 (now - (if s.last_update_ts ≤ 0 then now else s.last_update_ts)) :=
    le_max_left _ _
  have hw := wear_multiplier_nonneg ((speed : ℚ))
  have hprod : 0 ≤ (max 0 (now - (if s.last_update_ts ≤ 0 then now else s.last_update_ts)) / 3600) *
      (1/4 + (3/4 * (clamp (speed : ℚ) 0 100 / 100))) := by positivity
  linarith

lemma update_runtime_interval_eq (now : ℚ) (speed : ℤ) (s : FilterState) :
    (update_runtime now speed s).replacement_interval_hours = s.replacement_interval_hours := rfl

lemma usage_percent_mono (s t : FilterState)
    (hint : s.replacement_interval_hours = t.replacement_interval_hours)
    (hrt : s.runtime_hours ≤ t.runtime_hours) :
    usage_percent s ≤ usage_percent t := by
  unfold usage_percent
  rw [hint]
  by_cases h : t.replacement_interval_hours ≤ 0
  · simp [h]
  · simp only [h, if_false]
    have hpos : 0 < t.replacement_interval_hours := lt_of_not_ge h
    have hdiv : s.runtime_hours / t.replacement_interval_hours ≤
        t.runtime_hours / t.replacement_interval_hours :=
      div_le_div_of_nonneg_right hrt hpos.le
    have hmul := mul_le_mul_of_nonneg_right hdiv (by norm_num : (0:ℚ) ≤ 100)
    exact max_le_max le_rfl hmul

lemma runUpdates_interval_eq (l : List (ℚ × ℤ)) (s : FilterState) :
    (runUpdates l s).replacement_interval_hours = s.replacement_interval_hours := by
  induction l generalizing s with
  | nil => rfl
  | cons u rest ih =>
    simpa [runUpdates] using (ih (update_runtime u.1 u.2 s)).trans
      (update_runtime_interval_eq u.1 u.2 s)

lemma pyRound_intCast (n : ℤ) : pyRound ((n : ℤ) : ℚ) = n := by
  unfold pyRound
  rw [Int.floor_intCast]
  norm_num

lemma clamp_zero_zero_one : clamp 0 0 1 = 0 := by
  norm_num [clamp, max_def, min_def]

lemma clamp_one_zero_one : clamp 1 0 1 = 1 := by
  norm_num [clamp, max_def, min_def]

lemma target_rpm_for_zero (a b : ℤ) : target_rpm_for a b 0 = a := by
  unfold target_rpm_for
  rw [clamp_zero_zero_one, zero_mul, add_zero, pyRound_intCast]

lemma target_rpm_for_one (a b : ℤ) : target_rpm_for a b 1 = b := by
  unfold target_rpm_for
  rw [clamp_one_zero_one, one_mul]
  have harg : ((a : ℤ) : ℚ) + (((b : ℤ) : ℚ) - ((a : ℤ) : ℚ)) = ((b : ℤ) : ℚ) := by ring
  rw [harg, pyRound_intCast]

lemma insertByPwm_length (a : Sample) (l : List Sample) :
    (insertByPwm a l).length = l.length + 1 := by
  induction l with
  | nil => rfl
  | cons b rest ih =>
    unfold insertByPwm
    split <;> simp [ih]

lemma sortByPwm_length (l : List Sample) : (sortByPwm l).length = l.length := by
  induction l with
  | nil => rfl
  | cons a rest ih => simp [sortByPwm, insertByPwm_length, ih]

lemma runningMax_length (m : ℤ) (l : List Sample) :
    (runningMax m l).length = l.length := by
  induction l generalizing m with
  | nil => rfl
  | cons s rest ih => simp [runningMax, ih]

lemma filterMap_clean_length (raw : List RawEntry) :
    (raw.filterMap cleanSample).length = (raw.filter isDict).length := by
  induction raw with
  | nil => rfl
  | cons e rest ih => cases e <;> simp [cleanSample, isDict, ih]

/-! ## Theorems for the claims -/

/-- Claim C10: `usage_percent` is total and guarded against division by
zero: whenever the replacement interval is non-positive it returns 0, and
for every state the result is non-negative. -/
theorem usage_percent_total_guarded (s : FilterState) :
    (s.replacement_interval_hours ≤ 0 → usage_percent s = 0) ∧ 0 ≤ usage_percent s := by
  constructor
  · intro h
    simp [usage_percent, h]
  · unfold usage_percent
    by_cases h : s.replacement_interval_hours ≤ 0
    · simp [h]
    · simp only [h, if_false]
      exact le_max_left _ _

/-- Witness for C10 at the concrete state ⟨10, 0, 0⟩. -/
theorem usage_percent_total_guarded_witness :
    usage_percent ⟨10, 0, 0⟩ = 0 ∧ 0 ≤ usage_percent ⟨10, 0, 0⟩ :=
  ⟨(usage_percent_total_guarded ⟨10, 0, 0⟩).1 (by norm_num),
   (usage_percent_total_guarded ⟨10, 0, 0⟩).2⟩

/-- Claim C7: immediately after `reset()` the usage percentage is 0, and
along any sequence of `update_runtime` calls with non-negative speeds the
replacement interval is unchanged and `usage_percent` never decreases. -/
theorem usage_percent_monotone :
    (∀ (now : ℚ) (s : FilterState), usage_percent (resetFilter now s) = 0) ∧
    (∀ (l : List (ℚ × ℤ)) (s : FilterState), (∀ u ∈ l, 0 ≤ u.2) →
      (runUpdates l s).replacement_interval_hours = s.replacement_interval_hours ∧
      usage_percent s ≤ usage_percent (runUpdates l s)) := by
  constructor
  · intro now s
    unfold usage_percent resetFilter
    simp
  · intro l
    induction l with
    | nil =>
      intro s _
      exact ⟨rfl, le_rfl⟩
    | cons u rest ih =>
      intro s hpos
      have hrest : ∀ v ∈ rest, 0 ≤ v.2 := fun v hv => hpos v (List.mem_cons_of_mem _ hv)
      obtain ⟨hint, hmono⟩ := ih (update_runtime u.1 u.2 s) hrest
      refine ⟨?_, ?_⟩
      · simpa [runUpdates] using hint.trans (update_runtime_interval_eq u.1 u.2 s)
      · have h1 : usage_percent s ≤ usage_percent (update_runtime u.1 u.2 s) :=
          usage_percent_mono s (update_runtime u.1 u.2 s)
            (update_runtime_interval_eq u.1 u.2 s).symm
            (update_runtime_runtime_mono u.1 u.2 s)
        simpa [runUpdates] using h1.trans hmono

/-- Witness for C7: one reset and a two-update sequence at concrete data. -/
theorem usage_percent_monotone_witness :
    usage_percent (resetFilter 5 ⟨10, 1, 720⟩) = 0 ∧
    usage_percent ⟨0, 5, 720⟩ ≤
      usage_percent (runUpdates [(10, 40), (20, 80)] ⟨0, 5, 720⟩) :=
  ⟨usage_percent_monotone.1 5 ⟨10, 1, 720⟩,
   (usage_percent_monotone.2 [(10, 40), (20, 80)] ⟨0, 5, 720⟩
     (by intro u hu; fin_cases hu <;> norm_num)).2⟩

/-- Claim C8 counterexample: the state loaded from a persisted record with
runtime 60000 is clamped to runtime 50000 (so runtime 50000 is reachable),
yet one `update_runtime` call two hours later at full speed raises
`runtime_hours` to 50002 > 50000 — the upper bound is not preserved. -/
theorem filter_runtime_bound_cx :
    loadFilterState 0 720 (some ⟨some 60000, some 1000, some 720⟩) =
      (⟨50000, 1000, 720⟩ : FilterState) ∧
    (update_runtime 8200 100 ⟨50000, 1000, 720⟩).runtime_hours = 50002 ∧
    ¬ (update_runtime 8200 100
        (loadFilterState 0 720 (some ⟨some 60000, some 1000, some 720⟩))).runtime_hours
      ≤ 50000 := by
  refine ⟨?_, ?_, ?_⟩ <;>
    norm_num [loadFilterState, update_runtime, safeFloat, clamp,
      MIN_FILTER_HOURS, MAX_FILTER_HOURS, max_def, min_def]

/-- Claim C8 (amended): `_load_state` clamps `runtime_hours` into
[0, 50000]; every `FilterTracker` operation preserves `0 ≤ runtime_hours`;
but `update_runtime` adds wear without an upper cap, so the 50000 upper
bound is enforced only when loading persisted state, not as an invariant
of every operation. -/
theorem filter_runtime_bound_amended :
    (∀ (now di : ℚ) (d : Option RawFilterData),
      0 ≤ (loadFilterState now di d).runtime_hours ∧
      (loadFilterState now di d).runtime_hours ≤ 50000) ∧
    (∀ (now : ℚ) (sp : ℤ) (s : FilterState), 0 ≤ s.runtime_hours →
      0 ≤ (update_runtime now sp s).runtime_hours) ∧
    (∀ (now : ℚ) (s : FilterState), (resetFilter now s).runtime_hours = 0) ∧
    (∀ (h : ℚ) (s : FilterState),
      (set_replacement_interval h s).runtime_hours = s.runtime_hours) := by
  refine ⟨?_, ?_, fun _ _ => rfl, fun _ _ => rfl⟩
  · intro now di d
    match d with
    | none => exact ⟨le_rfl, by norm_num [loadFilterState]⟩
    | some dd =>
      constructor
      · exact le_max_left _ _
      · exact max_le (by norm_num) (min_le_left _ _)
  · intro now sp s hs
    exact hs.trans (update_runtime_runtime_mono now sp s)

/-- Witness for C8 (amended) at concrete inputs. -/
theorem filter_runtime_bound_amended_witness :
    (0 ≤ (loadFilterState 0 720 none).runtime_hours ∧
      (loadFilterState 0 720 none).runtime_hours ≤ 50000) ∧
    0 ≤ (update_runtime 10 50 ⟨0, 0, 720⟩).runtime_hours :=
  ⟨filter_runtime_bound_amended.1 0 720 none,
   filter_runtime_bound_amended.2.1 10 50 ⟨0, 0, 720⟩ (by norm_num)⟩

/-- Claim C6: for every combination of the three last-success flags (and
any counters), `status()` reports ESP offline whenever the device flag is
false; otherwise API degraded takes priority over AI degraded; with all
flags true it reports recovering exactly when some failure counter is
nonzero and healthy exactly when all counters are zero. -/
theorem health_status_priority (s : HealthState) :
    (s.last_esp_ok = false → (healthStatus s).label = "Health: ESP Offline") ∧
    (s.last_esp_ok = true → s.last_api_ok = false →
      (healthStatus s).label = "Health: API Degraded") ∧
    (s.last_esp_ok = true → s.last_api_ok = true → s.last_ai_ok = false →
      (healthStatus s).label = "Health: AI Degraded") ∧
    (s.last_esp_ok = true → s.last_api_ok = true → s.last_ai_ok = true →
      (((healthStatus s).label = "Health: Recovering" ↔
          0 < s.esp_failures + s.api_failures + s.ai_failures) ∧
        ((healthStatus s).label = "Health: Healthy" ↔
          s.esp_failures + s.api_failures + s.ai_failures = 0))) := by
  obtain ⟨ef, af, aif, eok, apok, aiok⟩ := s
  refine ⟨?_, ?_, ?_, ?_⟩ <;> intro h <;> simp_all [healthStatus] <;>
    by_cases hc : 0 < ef + af + aif <;> simp_all [healthStatus] <;> omega

/-- Witness for C6 at a concrete state: device flag false overrides the
other flags being healthy. -/
theorem health_status_priority_witness :
    (healthStatus ⟨1, 2, 3, false, true, true⟩).label = "Health: ESP Offline" :=
  (health_status_priority ⟨1, 2, 3, false, true, true⟩).1 rfl

/-- Claim C3: `compute_applied_speed` always returns an applied duty
inside [min_speed, max_speed], and when the state already holds an applied
duty inside the profile bounds (the invariant along any sequence of calls
with a fixed profile), the applied duty changes by at most `profile.step`
in absolute value. -/
theorem compute_applied_speed_slew_bound (p : Profile) (target current : ℤ)
    (s : FanState) (hb : p.min_speed ≤ p.max_speed) (hstep : 0 ≤ p.step) :
    (p.min_speed ≤ (compute_applied_speed p target current s).1.1 ∧
      (compute_applied_speed p target current s).1.1 ≤ p.max_speed) ∧
    (∀ a, s.ai_applied_speed = some a → p.min_speed ≤ a → a ≤ p.max_speed →
      |(compute_applied_speed p target current s).1.1 - a| ≤ p.step) := by
  constructor
  · simp only [compute_applied_speed, clampZ]
    omega
  · intro a ha halo hahi
    simp only [compute_applied_speed, ha, clampZ]
    rw [abs_le]
    rcases le_or_lt 0 (p.min_speed ⊔ p.max_speed ⊓ target - a) with h0 | h0
    · rw [abs_of_nonneg h0]
      split_ifs <;> omega
    · rw [abs_of_neg h0]
      split_ifs <;> omega

/-- Witness for C3: a concrete call with the balanced profile from the
seeded state 40, target 92 — the applied duty moves by exactly the step. -/
theorem compute_applied_speed_slew_bound_witness :
    (balanced.min_speed ≤ (compute_applied_speed balanced 92 0 ⟨none, some 40⟩).1.1 ∧
      (compute_applied_speed balanced 92 0 ⟨none, some 40⟩).1.1 ≤ balanced.max_speed) ∧
    |(compute_applied_speed balanced 92 0 ⟨none, some 40⟩).1.1 - 40| ≤ balanced.step :=
  ⟨(compute_applied_speed_slew_bound balanced 92 0 ⟨none, some 40⟩
      (by norm_num [balanced]) (by norm_num [balanced])).1,
   (compute_applied_speed_slew_bound balanced 92 0 ⟨none, some 40⟩
      (by norm_num [balanced]) (by norm_num [balanced])).2 40 rfl
      (by norm_num [balanced]) (by norm_num [balanced])⟩

/-- Claim C1 counterexample: the calibration loaded from samples
(10,100),(50,500),(100,900) with no stored spin-up/max keys derives
spin-up RPM 500 (the first sample with RPM ≥ 250) and max RPM 900; it has
3 valid monotonic samples and max RPM > spin-up RPM, yet
`pwm_for_demand(0, balanced)` returns 50 — the duty interpolated at the
spin-up RPM — not the lowest sample's duty 10 clamped to [34, 92] = 34. -/
theorem pwm_for_demand_demand_zero_cx :
    loadCalibration (some ⟨some [.entry (some 10) (some 100), .entry (some 50) (some 500),
        .entry (some 100) (some 900)], none, none, none⟩)
      = some ⟨[⟨10, 100⟩, ⟨50, 500⟩, ⟨100, 900⟩], 50, 500, 900⟩ ∧
    pwm_for_demand (some ⟨[⟨10, 100⟩, ⟨50, 500⟩, ⟨100, 900⟩], 50, 500, 900⟩) 0 balanced
      = some 50 ∧
    clampZ 10 balanced.min_speed balanced.max_speed = 34 ∧ (50 : ℤ) ≠ 34 := by
  refine ⟨?_, ?_, ?_, by norm_num⟩
  · norm_num [loadCalibration, cleanSample, safeInt, pyIntTrunc, sortByPwm, insertByPwm,
      runningMax, clampZ, FAN_APP_MAX_RPM, max_def, min_def, List.find?, List.foldl,
      List.filterMap_cons, Option.getD]
  · norm_num [pwm_for_demand, pwmFromSorted, interpolateSearch, target_rpm_for, sortByRpm,
      insertByRpm, validSample, FAN_APP_MAX_RPM, clamp, clampZ, pyRound, max_def, min_def,
      balanced, List.getLastD]
  · norm_num [clampZ, balanced, max_def, min_def]

/-- Claim C1 (amended): for a calibration with at least 2 valid samples
whose rpm-sorted order starts at `first` and ends at `lastS`, provided the
stored spin-up RPM is at most the lowest sample's RPM, the stored max RPM
is at least the highest sample's RPM, and the lowest sample's RPM is
strictly below the highest sample's RPM, `pwm_for_demand` at demand 0
returns the lowest sample's duty and at demand 1 the highest sample's
duty, both clamped to the profile bounds. -/
theorem pwm_for_demand_endpoints_amended (cal : Calibration) (p : Profile)
    (first lastS : Sample) (rest : List Sample)
    (hv : sortByRpm (cal.samples.filter validSample) = first :: rest)
    (hlast : lastS = rest.getLastD first)
    (h2 : 2 ≤ (cal.samples.filter validSample).length)
    (hlo : cal.spin_up_rpm ≤ first.rpm)
    (hhi : lastS.rpm ≤ cal.max_rpm)
    (hne : first.rpm < lastS.rpm) :
    pwm_for_demand (some cal) 0 p = some (clampZ first.pwm p.min_speed p.max_speed) ∧
    pwm_for_demand (some cal) 1 p = some (clampZ lastS.pwm p.min_speed p.max_speed) := by
  have hlen : ¬ (cal.samples.length < 2) := by
    have := List.length_filter_le validSample cal.samples
    omega
  have hvlen : ¬ ((cal.samples.filter validSample).length < 2) := by omega
  have hmaxspin : ¬ (cal.max_rpm ≤ cal.spin_up_rpm) := by omega
  constructor
  · simp only [pwm_for_demand, if_neg hlen, if_neg hvlen, if_neg hmaxspin, hv, pwmFromSorted]
    rw [target_rpm_for_zero, if_pos hlo]
  · simp only [pwm_for_demand, if_neg hlen, if_neg hvlen, if_neg hmaxspin, hv, pwmFromSorted]
    rw [target_rpm_for_one, if_neg (by omega : ¬ cal.max_rpm ≤ first.rpm), ← hlast,
      if_pos hhi]

/-- Witness for C1 (amended) at the spec's example calibration with the
balanced profile. -/
theorem pwm_for_demand_endpoints_amended_witness :
    pwm_for_demand (some ⟨[⟨20, 300⟩, ⟨50, 900⟩, ⟨100, 1800⟩], 20, 300, 1800⟩) 0 balanced
      = some (clampZ 20 balanced.min_speed balanced.max_speed) ∧
    pwm_for_demand (some ⟨[⟨20, 300⟩, ⟨50, 900⟩, ⟨100, 1800⟩], 20, 300, 1800⟩) 1 balanced
      = some (clampZ 100 balanced.min_speed balanced.max_speed) :=
  pwm_for_demand_endpoints_amended ⟨[⟨20, 300⟩, ⟨50, 900⟩, ⟨100, 1800⟩], 20, 300, 1800⟩
    balanced ⟨20, 300⟩ ⟨100, 1800⟩ [⟨50, 900⟩, ⟨100, 1800⟩]
    (by decide) (by decide) (by decide) (by decide) (by decide) (by decide)

/-- Claim C2 counterexample: a stored calibration with exactly one valid
sample — fewer than 2 — is not rejected by `_load_calibration`; it loads
as a one-sample calibration rather than returning "no calibration". -/
theorem load_calibration_single_sample_cx :
    loadCalibration (some ⟨some [.entry (some 50) (some 1000)], none, none, none⟩)
      = some ⟨[⟨50, 1000⟩], 50, 1000, 1000⟩ ∧
    loadCalibration (some ⟨some [.entry (some 50) (some 1000)], none, none, none⟩) ≠ none := by
  have h : loadCalibration (some ⟨some [.entry (some 50) (some 1000)], none, none, none⟩)
      = some ⟨[⟨50, 1000⟩], 50, 1000, 1000⟩ := by
    norm_num [loadCalibration, cleanSample, safeInt, pyIntTrunc, sortByPwm, insertByPwm,
      runningMax, clampZ, FAN_APP_MAX_RPM, max_def, min_def, List.find?, List.foldl,
      List.filterMap_cons, Option.getD]
  exact ⟨h, by rw [h]; exact Option.some_ne_none _⟩

/-- Claim C2 (amended): `_load_calibration` discards sample entries that
are not objects (object entries with non-numeric fields are kept with the
fields defaulted to 0) and returns "no calibration" exactly when the
payload is missing/malformed or no object entries remain; the
fewer-than-2-valid-samples fail-closed behavior is enforced downstream by
`pwm_for_demand`, which returns "uncalibrated" for any calibration with
fewer than 2 samples. -/
theorem load_calibration_fail_closed_amended :
    loadCalibration none = none ∧
    (∀ (d : RawCalib) (raw : List RawEntry), d.samples = some raw →
      (loadCalibration (some d) = none ↔ (raw.filter isDict).length = 0)) ∧
    (∀ (d : RawCalib) (raw : List RawEntry) (cal : Calibration), d.samples = some raw →
      loadCalibration (some d) = some cal →
      cal.samples.length = (raw.filter isDict).length) ∧
    (∀ (cal : Calibration) (demand : ℚ) (p : Profile), cal.samples.length < 2 →
      pwm_for_demand (some cal) demand p = none) := by
  refine ⟨rfl, ?_, ?_, ?_⟩
  · intro d raw hs
    cases hcl : raw.filterMap cleanSample with
    | nil =>
      have hfl := filterMap_clean_length raw
      rw [hcl] at hfl
      simp only [loadCalibration, hs, hcl]
      simpa using hfl.symm
    | cons c cs =>
      have hfl := filterMap_clean_length raw
      rw [hcl] at hfl
      cases hrm : runningMax 0 (sortByPwm (c :: cs)) with
      | nil =>
        exfalso
        have := runningMax_length 0 (sortByPwm (c :: cs))
        rw [hrm, sortByPwm_length] at this
        simp at this
      | cons m ms =>
        simp only [loadCalibration, hs, hcl, hrm]
        constructor
        · intro h
          exact absurd h (Option.some_ne_none _)
        · intro h
          rw [← hfl] at h
          simp at h
  · intro d raw cal hs hcal
    cases hcl : raw.filterMap cleanSample with
    | nil =>
      rw [loadCalibration] at hcal
      simp only [hs, hcl] at hcal
      exact absurd hcal (by simp)
    | cons c cs =>
      have hfl := filterMap_clean_length raw
      rw [hcl] at hfl
      cases hrm : runningMax 0 (sortByPwm (c :: cs)) with
      | nil =>
        exfalso
        have := runningMax_length 0 (sortByPwm (c :: cs))
        rw [hrm, sortByPwm_length] at this
        simp at this
      | cons m ms =>
        rw [loadCalibration] at hcal
        simp only [hs, hcl, hrm, Option.some.injEq] at hcal
        have hsamples : cal.samples = m :: ms := by rw [← hcal]
        have hrl : (m :: ms).length = (c :: cs).length := by
          rw [← hrm, runningMax_length, sortByPwm_length]
        rw [hsamples, hrl, ← hfl]
  · intro cal demand p h
    simp only [pwm_for_demand, if_pos h]

/-- Witness for C2 (amended): a payload whose only entry is not an object
loads as "no calibration", and a one-sample calibration is rejected by
`pwm_for_demand`. -/
theorem load_calibration_fail_closed_amended_witness :
    (loadCalibration (some ⟨some [.notDict], none, none, none⟩) = none ↔
      ([RawEntry.notDict].filter isDict).length = 0) ∧
    pwm_for_demand (some ⟨[⟨50, 1000⟩], 50, 1000, 1000⟩) 0 balanced = none :=
  ⟨load_calibration_fail_closed_amended.2.1 ⟨some [.notDict], none, none, none⟩
      [.notDict] rfl,
   load_calibration_fail_closed_amended.2.2.2 ⟨[⟨50, 1000⟩], 50, 1000, 1000⟩ 0 balanced
      (by decide)⟩

/-- Claim C9: with calibration samples (20,300),(50,900),(100,1800),
spin-up RPM 300 and max RPM 1800, demand 0.5 yields target RPM 1050 and
`pwm_for_demand` returns duty 58, interpolated between (50,900) and
(100,1800), for any profile whose bounds admit 58. -/
theorem pwm_for_demand_example_58 (p : Profile)
    (hlo : p.min_speed ≤ 58) (hhi : 58 ≤ p.max_speed) :
    target_rpm_for 300 1800 (1/2) = 1050 ∧
    pwm_for_demand (some ⟨[⟨20, 300⟩, ⟨50, 900⟩, ⟨100, 1800⟩], 20, 300, 1800⟩) (1/2) p
      = some 58 := by
  constructor
  · norm_num [target_rpm_for, clamp, max_def, min_def, pyRound]
  · have h58 : clampZ 58 p.min_speed p.max_speed = 58 := by
      simp only [clampZ]
      omega
    norm_num [pwm_for_demand, pwmFromSorted, interpolateSearch, target_rpm_for, sortByRpm,
      insertByRpm, validSample, FAN_APP_MAX_RPM, clamp, pyRound, max_def, min_def,
      List.getLastD, h58]

/-- Witness for C9 with the balanced profile. -/
theorem pwm_for_demand_example_58_witness :
    target_rpm_for 300 1800 (1/2) = 1050 ∧
    pwm_for_demand (some ⟨[⟨20, 300⟩, ⟨50, 900⟩, ⟨100, 1800⟩], 20, 300, 1800⟩) (1/2) balanced
      = some 58 :=
  pwm_for_demand_example_58 balanced (by norm_num [balanced]) (by norm_num [balanced])


/-- Claim C4: `_should_query_llm` returns false whenever fewer than 120
seconds have elapsed and the context is unchanged, and returns true
whenever at least 300 seconds have elapsed, regardless of the context. -/
theorem should_query_llm_intervals (now last_ts : ℚ) (lc : Option Ctx) (cc : Ctx) :
    (now - last_ts < LLM_MIN_INTERVAL_SECONDS → lc = some cc →
      should_query_llm now last_ts lc cc = false) ∧
    (LLM_MAX_INTERVAL_SECONDS ≤ now - last_ts →
      should_query_llm now last_ts lc cc = true) := by
  constructor
  · intro h _
    have hmax : ¬ (LLM_MAX_INTERVAL_SECONDS ≤ now - last_ts) := by
      rw [LLM_MIN_INTERVAL_SECONDS] at h
      rw [LLM_MAX_INTERVAL_SECONDS]
      linarith
    simp [should_query_llm, hmax, h]
  · intro h
    simp [should_query_llm, h]

/-- Witness for C4: 60 seconds elapsed with an unchanged context gives
false; 300 seconds elapsed gives true. -/
theorem should_query_llm_intervals_witness :
    should_query_llm 60 0 (some [("aqi", .num 3)]) [("aqi", .num 3)] = false ∧
    should_query_llm 300 0 (some [("aqi", .num 3)]) [("aqi", .num 3)] = true :=
  ⟨(should_query_llm_intervals 60 0 (some [("aqi", .num 3)]) [("aqi", .num 3)]).1
      (by norm_num [LLM_MIN_INTERVAL_SECONDS]) rfl,
   (should_query_llm_intervals 300 0 (some [("aqi", .num 3)]) [("aqi", .num 3)]).2
      (by norm_num [LLM_MAX_INTERVAL_SECONDS])⟩

/-- Claim C5: on a forced fail-safe request `decide_fan_target` returns
the baseline unmodified and reports degraded; when the advisory call is
made and fails it returns the baseline clamped to profile bounds and
reports degraded; when an advisory value is obtained — freshly extracted
from the reply, or served from the cache when no query is due — it
returns round(0.65·baseline + 0.35·advisory) clamped to profile bounds
and reports the cycle as not degraded. -/
theorem decide_fan_target_blend (profile_name : String) (r : SensorReadings)
    (baseline : ℤ) (now : ℚ) (st : AIState) (health : HealthState) :
    (∀ reply, (decide_fan_target profile_name r baseline true now reply st health).1
        = (baseline, true)) ∧
    (∀ e, (st.cached_fan_speed.isNone ||
        should_query_llm now st.last_fan_ai_ts st.last_fan_context (fanContext r)) = true →
      (decide_fan_target profile_name r baseline false now (.error e) st health).1
        = (clampZ baseline (profileConfig profile_name).min_speed
            (profileConfig profile_name).max_speed, true)) ∧
    (∀ raw, (st.cached_fan_speed.isNone ||
        should_query_llm now st.last_fan_ai_ts st.last_fan_context (fanContext r)) = true →
      (decide_fan_target profile_name r baseline false now (.ok raw) st health).1
        = (clampZ (pyRound ((65/100) * (baseline : ℚ) + (35/100) *
              ((extract_speed raw (profileConfig profile_name).min_speed
                (profileConfig profile_name).max_speed baseline : ℤ) : ℚ)))
            (profileConfig profile_name).min_speed
            (profileConfig profile_name).max_speed, false)) ∧
    (∀ reply c, st.cached_fan_speed = some c →
      should_query_llm now st.last_fan_ai_ts st.last_fan_context (fanContext r) = false →
      (decide_fan_target profile_name r baseline false now reply st health).1
        = (clampZ (pyRound ((65/100) * (baseline : ℚ) + (35/100) * ((c : ℤ) : ℚ)))
            (profileConfig profile_name).min_speed
            (profileConfig profile_name).max_speed, false)) := by
  refine ⟨fun reply => rfl, ?_, ?_, ?_⟩
  · intro e hq
    simp only [decide_fan_target, if_false, Bool.false_eq_true, hq, if_true]
    have harith : (baseline : ℚ) * (1 - 0) + (baseline : ℚ) * 0 = ((baseline : ℤ) : ℚ) := by
      ring
    simp [harith, pyRound_intCast]
  · intro raw hq
    simp only [decide_fan_target, if_false, Bool.false_eq_true, hq, if_true]
    have harith : (baseline : ℚ) * (1 - 35/100) +
        ((extract_speed raw (profileConfig profile_name).min_speed
          (profileConfig profile_name).max_speed baseline : ℤ) : ℚ) * (35/100)
        = (65/100) * (baseline : ℚ) + (35/100) *
          ((extract_speed raw (profileConfig profile_name).min_speed
            (profileConfig profile_name).max_speed baseline : ℤ) : ℚ) := by
      ring
    simp [harith]
  · intro reply c hc hq
    simp only [decide_fan_target, if_false, Bool.false_eq_true, hc, hq]
    have harith : (baseline : ℚ) * (1 - 35/100) + ((c : ℤ) : ℚ) * (35/100)
        = (65/100) * (baseline : ℚ) + (35/100) * ((c : ℤ) : ℚ) := by
      ring
    simp [harith]

/-- Witness for C5 at concrete inputs: a failed advisory call from an
empty cache (the query fires because the cache is empty), and the forced
fail-safe path. -/
theorem decide_fan_target_blend_witness :
    (decide_fan_target "balanced" ⟨0, 0, 0, 3, 0, 0, 0, 0⟩ 50 true 1000 (.error "down")
        ⟨none, 0, none⟩ ⟨0, 0, 0, true, true, true⟩).1 = (50, true) ∧
    (decide_fan_target "balanced" ⟨0, 0, 0, 3, 0, 0, 0, 0⟩ 50 false 1000 (.error "down")
        ⟨none, 0, none⟩ ⟨0, 0, 0, true, true, true⟩).1
      = (clampZ 50 (profileConfig "balanced").min_speed
          (profileConfig "balanced").max_speed, true) :=
  ⟨(decide_fan_target_blend "balanced" ⟨0, 0, 0, 3, 0, 0, 0, 0⟩ 50 1000
      ⟨none, 0, none⟩ ⟨0, 0, 0, true, true, true⟩).1 (.error "down"),
   (decide_fan_target_blend "balanced" ⟨0, 0, 0, 3, 0, 0, 0, 0⟩ 50 1000
      ⟨none, 0, none⟩ ⟨0, 0, 0, true, true, true⟩).2.1 "down" rfl⟩

end AirPurifier
